import Mathlib

/-!
Verification of the carbon-dashboard scoring/filtering pipeline.

This file is a shallow embedding, in Lean 4, of the pure core of the
`carbon-dashboard` repository:

* `src/dashboard/app.py` — the public dashboard (`api_commitments`,
  `api_funding`, `api_alerts`, `parse_funding_amount`);
* `src/dashboard/secure_app.py` — the hardened dashboard
  (`validate_query_params`, `api_commitments`, `api_funding`,
  `api_alerts`, `parse_funding_amount`);
* `src/create_real_data.py` — `calculate_dovu_relevance`;
* `src/scrapers/funding-tracker.py` — `determine_stage`,
  `parse_funding_amount` (the `Optional[float]` variant).

Modelling conventions:
* Python floats are modelled as `ℚ` (all amounts and scores in the code
  are produced by decimal arithmetic on small literals);
* a Python function that can raise an exception which escapes to its
  caller is modelled with an `Option` result (`none` = exception);
* Python `datetime.strptime(s, "%Y-%m-%d")` is modelled by `parseDate`,
  which accepts exactly a 4-digit year, a 1–2 digit month in 1..12 and a
  1–2 digit day in 1..days-in-month, mirroring CPython's `%Y`/`%m`/`%d`
  patterns and the `datetime` constructor's range validation;
* the reference "now" enters the endpoints only through the already
  computed `cutoff` / `week_ago` date, which we take as a parameter.
-/

set_option maxRecDepth 100000

abbrev Date := ℕ × ℕ × ℕ

/-- Lexicographic comparison of (year, month, day) triples; this is how
`datetime` objects compare in Python. -/
def dateLe (a b : Date) : Bool :=
  a.1 < b.1 || (a.1 = b.1 && (a.2.1 < b.2.1 || (a.2.1 = b.2.1 && a.2.2 ≤ b.2.2)))

/-- Numeric value of an ASCII digit character. -/
def digitVal (c : Char) : ℕ := c.toNat - 48

/-- The natural number denoted by a list of ASCII digit characters. -/
def natOfDigits (ds : List Char) : ℕ := ds.foldl (fun n c => 10 * n + digitVal c) 0

/-- Python `str.split('-')` on a list of characters. -/
def splitOnDash : List Char → List (List Char)
  | [] => [[]]
  | c :: rest =>
    if c = '-' then [] :: splitOnDash rest
    else
      match splitOnDash rest with
      | [] => [[c]]
      | g :: gs => (c :: g) :: gs

/-- Gregorian leap-year rule, as used by Python's `datetime`. -/
def isLeap (y : ℕ) : Bool := y % 4 = 0 && (y % 100 ≠ 0 || y % 400 = 0)

/-- Number of days in month `m` of year `y`. -/
def daysInMonth (y m : ℕ) : ℕ :=
  if m = 2 then (if isLeap y then 29 else 28)
  else if m = 4 ∨ m = 6 ∨ m = 9 ∨ m = 11 then 30
  else 31

/-- `datetime.strptime(s, "%Y-%m-%d")`: `some` of the date on success,
`none` when the Python call raises `ValueError` (or `TypeError`/`KeyError`
for a missing field, which callers treat identically). -/
def parseDate (s : String) : Option Date :=
  match splitOnDash s.data with
  | [ys, ms, ds] =>
    if ys.length = 4 && ys.all Char.isDigit
        && 1 ≤ ms.length && ms.length ≤ 2 && ms.all Char.isDigit
        && 1 ≤ ds.length && ds.length ≤ 2 && ds.all Char.isDigit then
      let y := natOfDigits ys
      let m := natOfDigits ms
      let d := natOfDigits ds
      if 1 ≤ m && m ≤ 12 && 1 ≤ d && d ≤ daysInMonth y m then some (y, m, d) else none
    else none
  | _ => none

/-- Python substring containment (`needle in haystack`) on character lists. -/
def isInfixOfCL : List Char → List Char → Bool
  | needle, [] => needle.isEmpty
  | needle, c :: rest => needle.isPrefixOf (c :: rest) || isInfixOfCL needle rest

/-- First match of the regex `(\d+(?:\.\d+)?)` in a character list, as a
rational: the first maximal digit run, together with a fractional part when
it is immediately followed by `.` and at least one digit.  `none` when the
string contains no digit. -/
def firstNumber : List Char → Option ℚ
  | [] => none
  | c :: rest =>
    if c.isDigit then
      let intPart := (c :: rest).takeWhile Char.isDigit
      let afterInt := (c :: rest).dropWhile Char.isDigit
      let fracPart :=
        match afterInt with
        | '.' :: fs => fs.takeWhile Char.isDigit
        | _ => []
      some ((natOfDigits intPart : ℚ) + (natOfDigits fracPart : ℚ) / 10 ^ fracPart.length)
    else firstNumber rest

/-- `src/dashboard/app.py`, lines 113–131 (`DashboardData.parse_funding_amount`):
the first number of the comma-stripped input, scaled by a unit found by
searching the raw string (uppercased for `B`/`M`/`K`, lowercased for the
words `billion`/`million`/`thousand`). -/
def parse_funding_amount_app (amount_str : String) : ℚ :=
  if amount_str.isEmpty then 0
  else
    match firstNumber (amount_str.data.filter (· ≠ ',')) with
    | none => 0
    | some value =>
      let up := amount_str.data.map Char.toUpper
      let low := amount_str.data.map Char.toLower
      if up.contains 'B' || isInfixOfCL "billion".data low then value * 1000
      else if up.contains 'M' || isInfixOfCL "million".data low then value
      else if up.contains 'K' || isInfixOfCL "thousand".data low then value / 1000
      else value

/-- Characters kept by `re.sub(r'[^\d.MBK]', '', amount_str.upper())` in
`src/dashboard/secure_app.py`, line 221. -/
def keptBySub (c : Char) : Bool := c.isDigit || c = '.' || c = 'M' || c = 'B' || c = 'K'

/-- `src/dashboard/secure_app.py`, lines 214–237
(`DashboardData.parse_funding_amount`): the input is uppercased and cleaned
to the alphabet digits/`.`/`M`/`B`/`K` before both the numeric extraction
and the unit search. -/
def parse_funding_amount_secure (amount_str : String) : ℚ :=
  if amount_str.isEmpty then 0
  else
    let clean_amount := (amount_str.data.map Char.toUpper).filter keptBySub
    match firstNumber clean_amount with
    | none => 0
    | some value =>
      if clean_amount.contains 'B' then value * 1000
      else if clean_amount.contains 'M' then value
      else if clean_amount.contains 'K' then value / 1000
      else value

/-- `src/scrapers/funding-tracker.py`, lines 280–301 (`parse_funding_amount`):
same arithmetic as the public dashboard's parser but `None` (here `none`)
for an empty input or an input without digits. -/
def parse_funding_amount_tracker (amount_str : String) : Option ℚ :=
  if amount_str.isEmpty then none
  else
    match firstNumber (amount_str.data.filter (· ≠ ',')) with
    | none => none
    | some value =>
      let up := amount_str.data.map Char.toUpper
      let low := amount_str.data.map Char.toLower
      if up.contains 'B' || isInfixOfCL "billion".data low then some (value * 1000)
      else if up.contains 'M' || isInfixOfCL "million".data low then some value
      else if up.contains 'K' || isInfixOfCL "thousand".data low then some (value / 1000)
      else some value

/-! ## Data model

Normalized entities as stored in the JSON snapshots and consumed by the
dashboard endpoints (spec §3).  The score fields are rationals; the
`announcement_date` is kept as the raw string, exactly as in the JSON
records that `api_commitments` / `api_funding` / `api_alerts` iterate over. -/

structure Commitment where
  company : String
  announcement_date : String
  commitment_type : String
  commitment_details : String
  carbon_volume_mentioned : String
  relevance_score : ℚ
  dovu_opportunity : String
  source_url : String
deriving DecidableEq, Repr

structure FundingEvent where
  company : String
  funding_type : String
  amount : String
  announcement_date : String
  sector : String
  business_model : String
  dovu_relevance : ℚ
  competitive_threat : ℚ
  partnership_opportunity : ℚ
  source_url : String
deriving DecidableEq, Repr

/-- A derived alert, as assembled by `api_alerts` (field `type` is the JSON
key `type`). -/
structure Alert where
  type : String
  priority : String
  title : String
  description : String
  action : String
  date : String
  source_url : String
deriving DecidableEq, Repr

/-- Query parameters as extracted from the request, before any
validation/clamping (the values of `request.args.get(...)` after the
float/int conversions succeeded). -/
structure RawParams where
  min_relevance : ℚ
  days : ℤ
  commitment_type : String
  sector : String
  min_threat : ℚ
  min_partnership : ℚ
deriving DecidableEq, Repr

/-- Validated parameters, the result of `validate_query_params`. -/
structure QueryParams where
  min_relevance : ℚ
  days_back : ℤ
  commitment_type : String
  sector : String
  min_threat : ℚ
  min_partnership : ℚ
deriving DecidableEq, Repr

/-- Characters of the class `[a-zA-Z0-9_-]`. -/
def filterValueChar (c : Char) : Bool := c.isAlphanum || c = '_' || c = '-'

/-- Python `re.match(r'^[a-zA-Z0-9_-]+$', s)` viewed as a Boolean: a
nonempty run of allowed characters spanning the string; the `$` anchor also
accepts a single trailing newline, as in Python's `re`. -/
def matchesFilterValue (s : String) : Bool :=
  let cs := s.data
  let core := if cs.getLast? = some '\n' then cs.dropLast else cs
  !core.isEmpty && core.all filterValueChar

/-- The sanitization applied to `commitment_type` and `sector` in
`validate_query_params` (`src/dashboard/secure_app.py`, lines 64–72):
a nonempty value that does not match the pattern is reset to `''`. -/
def sanitizeFilterValue (s : String) : String :=
  if s ≠ "" && !matchesFilterValue s then "" else s

/-- `src/dashboard/secure_app.py`, lines 55–90 (`validate_query_params`):
clamp the numeric thresholds into [0,1], clamp `days` into [1,365], and
sanitize the categorical values. -/
def validate_query_params (r : RawParams) : QueryParams :=
  { min_relevance := max 0 (min 1 r.min_relevance)
    days_back := max 1 (min 365 r.days)
    commitment_type := sanitizeFilterValue r.commitment_type
    sector := sanitizeFilterValue r.sector
    min_threat := max 0 (min 1 r.min_threat)
    min_partnership := max 0 (min 1 r.min_partnership) }

/-- The `days_back` clamp of the public dashboard
(`src/dashboard/app.py`, lines 150 and 190):
`max(1, min(180, int(request.args.get('days', 180))))`. -/
def clampDaysApp (n : ℤ) : ℤ := max 1 (min 180 n)

/-- The date-window test of the hardened endpoints: keep a record iff its
`announcement_date` parses and is `≥ cutoff_date`; a record whose date does
not parse is skipped by the per-record `try/except` (`secure_app.py`,
lines 265–270 and 309–314). -/
def secureDateKeep (cutoff : Date) (date : String) : Bool :=
  match parseDate date with
  | some d => dateLe cutoff d
  | none => false

/-- The date-window comprehension of the public endpoints (`app.py`, lines
158–162 and 202–206): `datetime.strptime` is called with no surrounding
`try/except`, so one unparseable date raises `ValueError` out of the whole
request (modelled as `none`). -/
def appDateFilterC (cutoff : Date) : List Commitment → Option (List Commitment)
  | [] => some []
  | c :: rest =>
    match parseDate c.announcement_date with
    | none => none
    | some d => (appDateFilterC cutoff rest).map fun r => if dateLe cutoff d then c :: r else r

/-- Same comprehension for funding events (`app.py`, lines 202–206). -/
def appDateFilterF (cutoff : Date) : List FundingEvent → Option (List FundingEvent)
  | [] => some []
  | f :: rest =>
    match parseDate f.announcement_date with
    | none => none
    | some d => (appDateFilterF cutoff rest).map fun r => if dateLe cutoff d then f :: r else r

/-- `src/dashboard/secure_app.py`, lines 252–294 (`api_commitments`):
validate the parameters, window by date (dropping unparseable-date records),
filter by relevance and by exact commitment type, and return the first 100
records together with the full filtered count.  `cutoff` is the
`datetime.now() - timedelta(days=params['days_back'])` value. -/
def api_commitments_secure (cutoff : Date) (r : RawParams) (commitments : List Commitment) :
    List Commitment × ℕ :=
  let params := validate_query_params r
  let filtered := commitments.filter fun c => secureDateKeep cutoff c.announcement_date
  let filtered :=
    if 0 < params.min_relevance then
      filtered.filter fun c => params.min_relevance ≤ c.relevance_score
    else filtered
  let filtered :=
    if params.commitment_type ≠ "" then
      filtered.filter fun c => c.commitment_type == params.commitment_type
    else filtered
  (filtered.take 100, filtered.length)

/-- `src/dashboard/app.py`, lines 142–180 (`api_commitments`): clamp
`min_relevance` into [0,1] but use the commitment type unsanitized; the date
window raises on the first unparseable date; the full filtered list is
returned with no 100-record cap. -/
def api_commitments_app (cutoff : Date) (r : RawParams) (commitments : List Commitment) :
    Option (List Commitment × ℕ) :=
  let min_relevance := max 0 (min 1 r.min_relevance)
  let commitment_type := r.commitment_type
  (appDateFilterC cutoff commitments).map fun filtered =>
    let filtered :=
      if 0 < min_relevance then
        filtered.filter fun c => min_relevance ≤ c.relevance_score
      else filtered
    let filtered :=
      if commitment_type ≠ "" then
        filtered.filter fun c => c.commitment_type == commitment_type
      else filtered
    (filtered, filtered.length)

/-- `src/dashboard/secure_app.py`, lines 296–348 (`api_funding`). -/
def api_funding_secure (cutoff : Date) (r : RawParams) (funding : List FundingEvent) :
    List FundingEvent × ℕ :=
  let params := validate_query_params r
  let filtered := funding.filter fun f => secureDateKeep cutoff f.announcement_date
  let filtered :=
    if 0 < params.min_relevance then
      filtered.filter fun f => params.min_relevance ≤ f.dovu_relevance
    else filtered
  let filtered :=
    if params.sector ≠ "" then filtered.filter fun f => f.sector == params.sector
    else filtered
  let filtered :=
    if 0 < params.min_threat then
      filtered.filter fun f => params.min_threat ≤ f.competitive_threat
    else filtered
  let filtered :=
    if 0 < params.min_partnership then
      filtered.filter fun f => params.min_partnership ≤ f.partnership_opportunity
    else filtered
  (filtered.take 100, filtered.length)

/-- `src/dashboard/app.py`, lines 182–231 (`api_funding`). -/
def api_funding_app (cutoff : Date) (r : RawParams) (funding : List FundingEvent) :
    Option (List FundingEvent × ℕ) :=
  let min_relevance := max 0 (min 1 r.min_relevance)
  let sector := r.sector
  let min_threat := max 0 (min 1 r.min_threat)
  let min_partnership := max 0 (min 1 r.min_partnership)
  (appDateFilterF cutoff funding).map fun filtered =>
    let filtered :=
      if 0 < min_relevance then filtered.filter fun f => min_relevance ≤ f.dovu_relevance
      else filtered
    let filtered :=
      if sector ≠ "" then filtered.filter fun f => f.sector == sector
      else filtered
    let filtered :=
      if 0 < min_threat then filtered.filter fun f => min_threat ≤ f.competitive_threat
      else filtered
    let filtered :=
      if 0 < min_partnership then
        filtered.filter fun f => min_partnership ≤ f.partnership_opportunity
      else filtered
    (filtered, filtered.length)

/-! ## Scoring engine and stage derivation -/

/-- `term in text.lower()` for a lowercase literal `term`. -/
def containsTerm (text : String) (term : String) : Bool :=
  isInfixOfCL term.data (text.data.map Char.toLower)

/-- `src/create_real_data.py`, lines 13–33 (`calculate_dovu_relevance`):
base score 0.5, four independent additive keyword bonuses, then
`min(0.95, max(0.4, score))`. -/
def calculate_dovu_relevance (company_data : String) : ℚ :=
  let score : ℚ := 1/2
  let score :=
    if ["supply chain", "supplier", "sourcing", "value chain"].any (containsTerm company_data)
    then score + 15/100 else score
  let score :=
    if ["token", "blockchain", "digital", "tracking"].any (containsTerm company_data)
    then score + 2/10 else score
  let score :=
    if ["million", "gigaton", "billion"].any (containsTerm company_data)
    then score + 1/10 else score
  let score :=
    if ["registry", "verification", "standard", "methodology"].any (containsTerm company_data)
    then score + 1/10 else score
  min (95/100) (max (4/10) score)

/-- `src/scrapers/funding-tracker.py`, lines 260–278 (`determine_stage`).
The fall-through branch mirrors Python truthiness: `if amount_value and
amount_value < 5` is false when `parse_funding_amount` returned `None`
(here `none`) or `0.0`. -/
def determine_stage (funding_type : String) (amount : String) : String :=
  let fl := funding_type.data.map Char.toLower
  if fl = "seed".data ∨ fl = "pre-seed".data then "seed"
  else if fl = "series a".data ∨ fl = "series b".data then "growth"
  else if fl = "series c".data ∨ fl = "series d".data ∨ fl = "series e".data then "mature"
  else if isInfixOfCL "acquisition".data fl then "exit"
  else
    match parse_funding_amount_tracker amount with
    | none => "mature"
    | some amount_value =>
      if amount_value ≠ 0 ∧ amount_value < 5 then "seed"
      else if amount_value ≠ 0 ∧ amount_value < 25 then "growth"
      else "mature"

/-! ## Alert derivation (`api_alerts`)

We embed the hardened `api_alerts` (`src/dashboard/secure_app.py`, lines
350–426); the public version (`src/dashboard/app.py`, lines 233–292) builds
the same alerts with the same thresholds, sort and truncation (it differs
only in raising on an unparseable commitment date, the subject of C1).
The three `for` loops appending to the `alerts` list are modelled as
`foldl`s; `week_ago` is the precomputed `datetime.now() - timedelta(days=7)`. -/

/-- `f"{score:.2f}"`: two-decimal rendering of a score, used only inside
alert text.  (Rounds half away from zero; Python's tie behavior on binary
floats is not observable for the decimal scores in this model.) -/
def format2 (q : ℚ) : String :=
  let n : ℤ := ⌊q * 100 + 1/2⌋
  let sign := if n < 0 then "-" else ""
  let m := n.natAbs
  sign ++ toString (m / 100) ++ "." ++ (if m % 100 < 10 then "0" else "") ++ toString (m % 100)

/-- The alert appended for a recent high-relevance commitment
(`secure_app.py`, lines 369–377). -/
def mkCommitmentAlert (c : Commitment) : Alert :=
  { type := "commitment"
    priority := "high"
    title := "🎯 High-Value Commitment: " ++ c.company
    description := c.commitment_type ++ " target, relevance score " ++ format2 c.relevance_score
    action := c.dovu_opportunity
    date := c.announcement_date
    source_url := c.source_url }

/-- The alert appended for a competitive threat (`secure_app.py`,
lines 387–395). -/
def mkThreatAlert (f : FundingEvent) : Alert :=
  { type := "threat"
    priority := "urgent"
    title := "⚠️ Competitive Threat: " ++ f.company
    description := f.funding_type ++ " " ++ f.amount ++ " - threat score "
      ++ format2 f.competitive_threat
    action := "Monitor product development and market positioning"
    date := f.announcement_date
    source_url := f.source_url }

/-- The alert appended for a partnership opportunity (`secure_app.py`,
lines 405–413). -/
def mkPartnershipAlert (f : FundingEvent) : Alert :=
  { type := "partnership"
    priority := "medium"
    title := "🤝 Partnership Opportunity: " ++ f.company
    description := f.business_model ++ " - partnership score "
      ++ format2 f.partnership_opportunity
    action := "Evaluate integration and partnership potential"
    date := f.announcement_date
    source_url := f.source_url }

/-- The commitment-alert condition: `announcement_date` parses, is
`≥ week_ago`, and `relevance_score > 0.6` (an unparseable date is caught by
the per-record `try/except` and the record skipped). -/
def commitmentAlertKeep (weekAgo : Date) (c : Commitment) : Bool :=
  match parseDate c.announcement_date with
  | some d => dateLe weekAgo d && decide ((6/10 : ℚ) < c.relevance_score)
  | none => false

/-- The threat-alert condition: `competitive_threat > 0.6` — no date test. -/
def threatAlertKeep (f : FundingEvent) : Bool := decide ((6/10 : ℚ) < f.competitive_threat)

/-- The partnership-alert condition: `partnership_opportunity > 0.6` — no
date test. -/
def partnershipAlertKeep (f : FundingEvent) : Bool :=
  decide ((6/10 : ℚ) < f.partnership_opportunity)

/-- The three sequential `for`-loops of `api_alerts` that build the `alerts`
list by appending (`secure_app.py`, lines 358–415). -/
def alertsLoop (weekAgo : Date) (commitments : List Commitment) (funding : List FundingEvent) :
    List Alert :=
  let alerts : List Alert := []
  let alerts := commitments.foldl
    (fun acc c => if commitmentAlertKeep weekAgo c then acc ++ [mkCommitmentAlert c] else acc)
    alerts
  let alerts := funding.foldl
    (fun acc f => if threatAlertKeep f then acc ++ [mkThreatAlert f] else acc) alerts
  funding.foldl
    (fun acc f => if partnershipAlertKeep f then acc ++ [mkPartnershipAlert f] else acc) alerts

/-- The comparison `alerts.sort(key=lambda x: x.get('date', ''), reverse=True)`
performs: descending by date string; `mergeSort` with this relation is
stable, exactly like Python's sort with `reverse=True`. -/
def alertDateGe (a b : Alert) : Bool := decide (b.date ≤ a.date)

/-- `src/dashboard/secure_app.py`, lines 350–423 (`api_alerts`): build the
alerts, sort them by date descending, and return the top 20 together with
the count of all alerts. -/
def api_alerts (weekAgo : Date) (commitments : List Commitment) (funding : List FundingEvent) :
    List Alert × ℕ :=
  let alerts := alertsLoop weekAgo commitments funding
  let alerts := alerts.mergeSort alertDateGe
  (alerts.take 20, alerts.length)

/-- A raw parameter set that sets only `days`. -/
def rawDays (n : ℤ) : RawParams :=
  { min_relevance := 0, days := n, commitment_type := "", sector := "",
    min_threat := 0, min_partnership := 0 }

/-- Negation of all named-branch guards of `determine_stage`: true exactly
when control reaches the amount-based fallback. -/
def stageFallthrough (ft : String) : Bool :=
  let fl := ft.data.map Char.toLower
  !(decide (fl = "seed".data) || decide (fl = "pre-seed".data)
    || decide (fl = "series a".data) || decide (fl = "series b".data)
    || decide (fl = "series c".data) || decide (fl = "series d".data)
    || decide (fl = "series e".data) || isInfixOfCL "acquisition".data fl)

/-- The character alphabet that survives the hardened parser's cleaning
step (uppercase unit letters only). -/
def goodAmountChars : List Char :=
  ['0', '1', '2', '3', '4', '5', '6', '7', '8', '9', '.', 'M', 'B', 'K']

/-! ## Concrete snapshot records used by the endpoint claims -/

/-- A cutoff far in the past, so that the 2026-dated records fall inside
every window under test. -/
def cutoff0 : Date := (2020, 1, 1)

def rec0 : Commitment :=
  { company := "Acme Corp", announcement_date := "2026-01-01",
    commitment_type := "net-zero", commitment_details := "supply chain pledge",
    carbon_volume_mentioned := "", relevance_score := 85/100,
    dovu_opportunity := "Supply Chain Carbon Management", source_url := "" }

/-- A commitment whose `announcement_date` does not parse as `YYYY-MM-DD`. -/
def badDateCommitment : Commitment :=
  { rec0 with company := "BadCo", announcement_date := "not-a-date" }

def fev0 : FundingEvent :=
  { company := "Climate Startup", funding_type := "Series A", amount := "$30M",
    announcement_date := "2026-01-02", sector := "climate-tech",
    business_model := "software-platform", dovu_relevance := 1/2,
    competitive_threat := 7/10, partnership_opportunity := 8/10, source_url := "" }

/-- A funding event whose `announcement_date` does not parse. -/
def badDateFunding : FundingEvent :=
  { fev0 with company := "BadFund", announcement_date := "" }

/-- Baseline query: no thresholds, no categorical filters, default window. -/
def raw0 : RawParams := rawDays 180

/-- The same query with an invalid categorical filter value. -/
def rawScript : RawParams :=
  { rawDays 180 with commitment_type := "<script>", sector := "<script>" }

/-- `week_ago` for a reference "now" of 2025-09-15. -/
def weekAgo0 : Date := (2025, 9, 8)

/-- A high-threat funding event dated about 400 days before that "now". -/
def fevOld : FundingEvent :=
  { fev0 with announcement_date := "2024-08-11", competitive_threat := 95/100 }

/-! ## Helper lemmas -/

/-- A number extracted by `firstNumber` is non-negative. -/
theorem firstNumber_nonneg : ∀ (cs : List Char) (v : ℚ), firstNumber cs = some v → 0 ≤ v := by
  intro cs
  induction cs with
  | nil => intro v h; simp [firstNumber] at h
  | cons c rest ih =>
    intro v h
    by_cases hd : c.isDigit
    · simp only [firstNumber, hd, if_true] at h
      obtain rfl := Option.some.inj h
      positivity
    · simp only [firstNumber, hd, if_false] at h
      exact ih v h

/-- The public parser never returns a negative amount. -/
theorem parse_funding_amount_app_nonneg (s : String) : 0 ≤ parse_funding_amount_app s := by
  rcases hfn : firstNumber (s.data.filter (· ≠ ',')) with _ | v
  · simp only [parse_funding_amount_app, hfn]
    split <;> exact le_refl 0
  · have h0 : 0 ≤ v := firstNumber_nonneg _ _ hfn
    simp only [parse_funding_amount_app, hfn]
    split
    · exact le_refl 0
    · split_ifs
      · exact mul_nonneg h0 (by norm_num)
      · exact h0
      · exact div_nonneg h0 (by norm_num)
      · exact h0

/-- The hardened parser never returns a negative amount. -/
theorem parse_funding_amount_secure_nonneg (s : String) : 0 ≤ parse_funding_amount_secure s := by
  rcases hfn : firstNumber (List.filter keptBySub (s.data.map Char.toUpper)) with _ | v
  · simp only [parse_funding_amount_secure, hfn]
    split <;> exact le_refl 0
  · have h0 : 0 ≤ v := firstNumber_nonneg _ _ hfn
    simp only [parse_funding_amount_secure, hfn]
    split
    · exact le_refl 0
    · split_ifs
      · exact mul_nonneg h0 (by norm_num)
      · exact h0
      · exact div_nonneg h0 (by norm_num)
      · exact h0

/-! ## C8 -/

/-- C8: for every text input, the commitment relevance score
`calculate_dovu_relevance text` lies in [0.4, 0.95]: the base-0.5 additive
keyword score is clamped with floor 0.4 and ceiling 0.95. -/
theorem c8_relevance_score_bounds (text : String) :
    (4/10 : ℚ) ≤ calculate_dovu_relevance text ∧ calculate_dovu_relevance text ≤ 95/100 := by
  unfold calculate_dovu_relevance
  refine ⟨le_min (by norm_num) (le_max_left _ _), min_le_left _ _⟩

/-! ## C3 -/

/-- C3: both implementations of `parse_funding_amount` are total (modelled
as total functions returning a defined rational) and non-negative on every
string input, and they evaluate as documented on the five specified inputs;
with several numbers in the input the first number wins. -/
theorem c3_parse_amount_total_nonneg :
    (∀ s : String, 0 ≤ parse_funding_amount_app s ∧ 0 ≤ parse_funding_amount_secure s) ∧
    parse_funding_amount_app "$5M" = 5 ∧ parse_funding_amount_secure "$5M" = 5 ∧
    parse_funding_amount_app "$1B" = 1000 ∧ parse_funding_amount_secure "$1B" = 1000 ∧
    parse_funding_amount_app "$500K" = 1/2 ∧ parse_funding_amount_secure "$500K" = 1/2 ∧
    parse_funding_amount_app "garbage" = 0 ∧ parse_funding_amount_secure "garbage" = 0 ∧
    parse_funding_amount_app "" = 0 ∧ parse_funding_amount_secure "" = 0 ∧
    parse_funding_amount_app "$12.5M then $3M" = 25/2 ∧
    parse_funding_amount_secure "$12.5M then $3M" = 25/2 := by
  refine ⟨fun s => ⟨parse_funding_amount_app_nonneg s, parse_funding_amount_secure_nonneg s⟩,
    ?_, ?_, ?_, ?_, ?_, ?_, ?_, ?_, ?_, ?_, ?_, ?_⟩ <;> with_unfolding_all decide

/-! ## C2 -/

/-- C2 counterexample: the hardened `validate_query_params` clamps
`days=999` to 365, not to 180 as the claim states for "the filtering
operations". -/
theorem c2_counterexample :
    (validate_query_params (rawDays 999)).days_back = 365 ∧
    (validate_query_params (rawDays 999)).days_back ≠ 180 := by
  constructor <;> decide

/-- C2 (amended): the public dashboard (`app.py`) clamps `days_back` into
[1,180] with 999 → 180, 0 → 1, 30 → 30; the hardened dashboard's
`validate_query_params` clamps into [1,365] instead (999 → 365, 0 → 1,
30 → 30). -/
theorem c2_days_back_clamp (n : ℤ) (r : RawParams) :
    1 ≤ clampDaysApp n ∧ clampDaysApp n ≤ 180 ∧
    clampDaysApp 999 = 180 ∧ clampDaysApp 0 = 1 ∧ clampDaysApp 30 = 30 ∧
    1 ≤ (validate_query_params r).days_back ∧ (validate_query_params r).days_back ≤ 365 ∧
    (validate_query_params (rawDays 999)).days_back = 365 ∧
    (validate_query_params (rawDays 0)).days_back = 1 ∧
    (validate_query_params (rawDays 30)).days_back = 30 := by
  refine ⟨?_, ?_, by decide, by decide, by decide, ?_, ?_, by decide, by decide, by decide⟩
  · unfold clampDaysApp; omega
  · unfold clampDaysApp; omega
  · show 1 ≤ max 1 (min 365 r.days); omega
  · show max 1 (min 365 r.days) ≤ 365; omega

/-! ## C9 -/

/-- C9 counterexample: with `funding_type = "grant"` and `amount = "$0M"`
the parsed amount is 0 < 5, so the claim requires stage "seed", but
`determine_stage` returns "mature": Python's `if amount_value and
amount_value < 5` treats the parsed value 0.0 as falsy. -/
theorem c9_counterexample :
    parse_funding_amount_tracker "$0M" = some 0 ∧ ((0:ℚ) < 5) ∧
    determine_stage "grant" "$0M" = "mature" ∧ determine_stage "grant" "$0M" ≠ "seed" := by
  refine ⟨by with_unfolding_all decide, by norm_num, by with_unfolding_all decide,
    by with_unfolding_all decide⟩

/-- C9 (amended): `determine_stage` maps "seed"/"pre-seed" (case-insensitively)
to "seed", "series a"/"series b" to "growth", "series c/d/e" to "mature",
any type containing "acquisition" to "exit"; otherwise it falls back to the
amount thresholds applied only when the parsed amount is available and
nonzero — parsed < 5 → "seed", < 25 → "growth", else "mature" — while an
unparseable or zero amount yields "mature". -/
theorem c9_determine_stage_cases (ft amt : String) :
    (ft.data.map Char.toLower = "seed".data ∨ ft.data.map Char.toLower = "pre-seed".data →
      determine_stage ft amt = "seed") ∧
    (ft.data.map Char.toLower = "series a".data ∨ ft.data.map Char.toLower = "series b".data →
      determine_stage ft amt = "growth") ∧
    (ft.data.map Char.toLower = "series c".data ∨ ft.data.map Char.toLower = "series d".data ∨
        ft.data.map Char.toLower = "series e".data →
      determine_stage ft amt = "mature") ∧
    (isInfixOfCL "acquisition".data (ft.data.map Char.toLower) = true →
      determine_stage ft amt = "exit") ∧
    (stageFallthrough ft = true →
      (parse_funding_amount_tracker amt = none → determine_stage ft amt = "mature") ∧
      (parse_funding_amount_tracker amt = some 0 → determine_stage ft amt = "mature") ∧
      (∀ v : ℚ, parse_funding_amount_tracker amt = some v → v ≠ 0 → v < 5 →
        determine_stage ft amt = "seed") ∧
      (∀ v : ℚ, parse_funding_amount_tracker amt = some v → 5 ≤ v → v < 25 →
        determine_stage ft amt = "growth") ∧
      (∀ v : ℚ, parse_funding_amount_tracker amt = some v → 25 ≤ v →
        determine_stage ft amt = "mature")) := by
  refine ⟨?_, ?_, ?_, ?_, ?_⟩
  · rintro (h | h) <;> simp [determine_stage, h]
  · rintro (h | h) <;> simp [determine_stage, h]
  · rintro (h | h | h) <;> simp [determine_stage, h]
  · intro h
    have h1 : ft.data.map Char.toLower ≠ "seed".data := by
      intro e; rw [e] at h; exact absurd h (by decide)
    have h2 : ft.data.map Char.toLower ≠ "pre-seed".data := by
      intro e; rw [e] at h; exact absurd h (by decide)
    have h3 : ft.data.map Char.toLower ≠ "series a".data := by
      intro e; rw [e] at h; exact absurd h (by decide)
    have h4 : ft.data.map Char.toLower ≠ "series b".data := by
      intro e; rw [e] at h; exact absurd h (by decide)
    have h5 : ft.data.map Char.toLower ≠ "series c".data := by
      intro e; rw [e] at h; exact absurd h (by decide)
    have h6 : ft.data.map Char.toLower ≠ "series d".data := by
      intro e; rw [e] at h; exact absurd h (by decide)
    have h7 : ft.data.map Char.toLower ≠ "series e".data := by
      intro e; rw [e] at h; exact absurd h (by decide)
    simp [determine_stage, h, h1, h2, h3, h4, h5, h6, h7]
  · intro hft
    simp only [stageFallthrough, Bool.not_eq_true', Bool.or_eq_false_iff,
      decide_eq_false_iff_not] at hft
    obtain ⟨⟨⟨⟨⟨⟨⟨h1, h2⟩, h3⟩, h4⟩, h5⟩, h6⟩, h7⟩, h8⟩ := hft
    have hstage : ∀ o, parse_funding_amount_tracker amt = o →
        determine_stage ft amt
          = (match o with
             | none => "mature"
             | some amount_value =>
               if amount_value ≠ 0 ∧ amount_value < 5 then "seed"
               else if amount_value ≠ 0 ∧ amount_value < 25 then "growth"
               else "mature") := by
      intro o ho
      simp [determine_stage, h1, h2, h3, h4, h5, h6, h7, h8, ho]
    refine ⟨?_, ?_, ?_, ?_, ?_⟩
    · intro ho; rw [hstage none ho]
    · intro ho; rw [hstage (some 0) ho]; norm_num
    · intro v ho hne hlt; rw [hstage (some v) ho]; simp [hne, hlt]
    · intro v ho hge hlt
      rw [hstage (some v) ho]
      have hne : v ≠ 0 := by intro e; rw [e] at hge; norm_num at hge
      have hnlt : ¬ v < 5 := by linarith
      simp [hne, hlt, hnlt]
    · intro v ho hge
      rw [hstage (some v) ho]
      have hnlt5 : ¬ v < 5 := by linarith
      have hnlt25 : ¬ v < 25 := by linarith
      simp [hnlt5, hnlt25]

/-- C9 witness: the amended case analysis evaluated at concrete inputs:
"Series B" gives "growth" and the nonzero fallback "$3M" gives "seed". -/
theorem c9_witness :
    determine_stage "Series B" "" = "growth" ∧
    stageFallthrough "Grant" = true ∧ parse_funding_amount_tracker "$3M" = some 3 ∧
    determine_stage "Grant" "$3M" = "seed" :=
  ⟨(c9_determine_stage_cases "Series B" "").2.1 (Or.inr (by decide)),
   by decide, by with_unfolding_all decide,
   ((c9_determine_stage_cases "Grant" "$3M").2.2.2.2 (by decide)).2.2.1 3
     (by with_unfolding_all decide) (by norm_num) (by norm_num)⟩

/-! ## C10 -/

/-- If `w` occurs as a substring of `l`, every character of `w` occurs
in `l`. -/
theorem isInfixOfCL_subset : ∀ (w l : List Char), isInfixOfCL w l = true → ∀ c ∈ w, c ∈ l := by
  intro w l
  induction l with
  | nil =>
    intro h c hc
    simp only [isInfixOfCL, List.isEmpty_iff] at h
    subst h; simp at hc
  | cons a rest ih =>
    intro h c hc
    rcases (Bool.or_eq_true _ _).mp h with h1 | h2
    · exact (List.isPrefixOf_iff_prefix.mp h1).sublist.subset hc
    · exact List.mem_cons_of_mem a (ih h2 c hc)

/-- C10 counterexample: on "5 thousand" the public parser applies the
word-unit "thousand" (0.005) while the hardened parser's cleaning step
erases the word and returns 5: the two `parse_funding_amount`
implementations are not extensionally equal. -/
theorem c10_counterexample :
    parse_funding_amount_app "5 thousand" = 1/200 ∧
    parse_funding_amount_secure "5 thousand" = 5 ∧
    parse_funding_amount_app "5 thousand" ≠ parse_funding_amount_secure "5 thousand" := by
  refine ⟨?_, ?_, ?_⟩ <;> with_unfolding_all decide

/-- C10 (amended): the two parsers agree on every string that is already in
cleaned form — containing only digits, `.`, and the uppercase unit letters
`M`, `B`, `K`.  (They can disagree when the cleaning step removes
characters: lowercase word units like "thousand", or junk between digits.) -/
theorem c10_parsers_agree (s : String) (h : ∀ c ∈ s.data, c ∈ goodAmountChars) :
    parse_funding_amount_app s = parse_funding_amount_secure s := by
  have hAllUp : ∀ c ∈ goodAmountChars, Char.toUpper c = c := by decide
  have hKept : ∀ c ∈ goodAmountChars, keptBySub c = true := by decide
  have hComma : ∀ c ∈ goodAmountChars, (decide (c ≠ ',')) = true := by decide
  have hNoI : ∀ c ∈ goodAmountChars, Char.toLower c ≠ 'i' := by decide
  have hNoT : ∀ c ∈ goodAmountChars, Char.toLower c ≠ 't' := by decide
  have hupper : s.data.map Char.toUpper = s.data := by
    rw [List.map_congr_left (fun c hc => (hAllUp c (h c hc)).trans rfl)]
    exact List.map_id _
  have hcomma : s.data.filter (· ≠ ',') = s.data :=
    List.filter_eq_self.mpr fun a ha => hComma a (h a ha)
  have hclean : (s.data.map Char.toUpper).filter keptBySub = s.data := by
    rw [hupper]
    exact List.filter_eq_self.mpr fun a ha => hKept a (h a ha)
  have hNoLowMem : ∀ ch : Char, (∀ c ∈ goodAmountChars, Char.toLower c ≠ ch) →
      ch ∉ s.data.map Char.toLower := by
    intro ch hno hmem
    obtain ⟨d, hd, hde⟩ := List.mem_map.mp hmem
    exact hno d (h d hd) hde
  have hnotB : isInfixOfCL "billion".data (s.data.map Char.toLower) = false := by
    rw [← Bool.not_eq_true]
    intro hb
    exact hNoLowMem 'i' hNoI (isInfixOfCL_subset _ _ hb 'i' (by decide))
  have hnotM : isInfixOfCL "million".data (s.data.map Char.toLower) = false := by
    rw [← Bool.not_eq_true]
    intro hb
    exact hNoLowMem 'i' hNoI (isInfixOfCL_subset _ _ hb 'i' (by decide))
  have hnotT : isInfixOfCL "thousand".data (s.data.map Char.toLower) = false := by
    rw [← Bool.not_eq_true]
    intro hb
    exact hNoLowMem 't' hNoT (isInfixOfCL_subset _ _ hb 't' (by decide))
  have hclean2 : s.data.filter keptBySub = s.data :=
    List.filter_eq_self.mpr fun a ha => hKept a (h a ha)
  unfold parse_funding_amount_app parse_funding_amount_secure
  simp only [hcomma, hclean, hupper, hclean2, hnotB, hnotM, hnotT, Bool.or_false]

/-- C10 witness: the amended agreement applied to the in-alphabet input
"12.5M". -/
theorem c10_witness :
    (∀ c ∈ ("12.5M" : String).data, c ∈ goodAmountChars) ∧
    parse_funding_amount_app "12.5M" = parse_funding_amount_secure "12.5M" :=
  ⟨by decide, c10_parsers_agree "12.5M" (by decide)⟩

/-! ## C1 -/

/-- Membership in `if P then l.filter q else l` implies membership in `l`. -/
theorem mem_of_ite_filter {α : Type} {x : α} {P : Prop} [Decidable P] {q : α → Bool}
    {l : List α} (hm : x ∈ if P then l.filter q else l) : x ∈ l := by
  split at hm
  · exact List.mem_of_mem_filter hm
  · exact hm

/-- C1 counterexample: in the public dashboard a single record with an
unparseable `announcement_date` makes the whole `api_commitments` /
`api_funding` request raise (`none`), instead of being dropped. -/
theorem c1_counterexample :
    api_commitments_app cutoff0 raw0 [badDateCommitment] = none ∧
    api_funding_app cutoff0 raw0 [badDateFunding] = none := by
  constructor <;> with_unfolding_all decide

/-- C1 (amended): in the hardened dashboard (`secure_app.py`), a commitment
or funding record whose `announcement_date` is absent or unparseable is
excluded from the date-windowed result while the query returns normally
(adding such a record does not change the response), and every returned
record has a parseable date; in the public dashboard (`app.py`) such a
record raises the strptime `ValueError` out of the endpoint. -/
theorem c1_bad_date_dropped (cutoff : Date) (r : RawParams) (cs : List Commitment)
    (fs : List FundingEvent) (c : Commitment) (f : FundingEvent)
    (hc : parseDate c.announcement_date = none) (hf : parseDate f.announcement_date = none) :
    api_commitments_secure cutoff r (c :: cs) = api_commitments_secure cutoff r cs ∧
    api_funding_secure cutoff r (f :: fs) = api_funding_secure cutoff r fs ∧
    (∀ x ∈ (api_commitments_secure cutoff r cs).1, (parseDate x.announcement_date).isSome = true) ∧
    (∀ x ∈ (api_funding_secure cutoff r fs).1, (parseDate x.announcement_date).isSome = true) := by
  refine ⟨?_, ?_, ?_, ?_⟩
  · simp only [api_commitments_secure]
    rw [List.filter_cons_of_neg (by simp [secureDateKeep, hc])]
  · simp only [api_funding_secure]
    rw [List.filter_cons_of_neg (by simp [secureDateKeep, hf])]
  · intro x hx
    simp only [api_commitments_secure] at hx
    have hx1 := List.mem_of_mem_take hx
    have hx2 : x ∈ cs.filter fun c => secureDateKeep cutoff c.announcement_date :=
      mem_of_ite_filter (mem_of_ite_filter hx1)
    have hkeep := (List.mem_filter.mp hx2).2
    rcases hp : parseDate x.announcement_date with _ | d
    · rw [secureDateKeep, hp] at hkeep; exact absurd hkeep (by simp)
    · simp [hp]
  · intro x hx
    simp only [api_funding_secure] at hx
    have hx1 := List.mem_of_mem_take hx
    have hx2 : x ∈ fs.filter fun f => secureDateKeep cutoff f.announcement_date :=
      mem_of_ite_filter (mem_of_ite_filter (mem_of_ite_filter (mem_of_ite_filter hx1)))
    have hkeep := (List.mem_filter.mp hx2).2
    rcases hp : parseDate x.announcement_date with _ | d
    · rw [secureDateKeep, hp] at hkeep; exact absurd hkeep (by simp)
    · simp [hp]

/-- C1 witness: the amended statement evaluated on concrete snapshots with
one good and one bad-date record of each kind. -/
theorem c1_witness :
    parseDate badDateCommitment.announcement_date = none ∧
    parseDate badDateFunding.announcement_date = none ∧
    api_commitments_secure cutoff0 raw0 (badDateCommitment :: [rec0])
      = api_commitments_secure cutoff0 raw0 [rec0] ∧
    api_funding_secure cutoff0 raw0 (badDateFunding :: [fev0])
      = api_funding_secure cutoff0 raw0 [fev0] :=
  ⟨by decide, by decide,
   (c1_bad_date_dropped cutoff0 raw0 [rec0] [fev0] badDateCommitment badDateFunding
     (by decide) (by decide)).1,
   (c1_bad_date_dropped cutoff0 raw0 [rec0] [fev0] badDateCommitment badDateFunding
     (by decide) (by decide)).2.1⟩

/-! ## C4 -/

/-- C4 counterexample: the public `api_commitments` applies no 100-record
cap — 101 matching records are all returned (and `total` equals the
returned length, so "matched N, returned min(N,100)" cannot be told apart
there either). -/
theorem c4_counterexample :
    ((api_commitments_app cutoff0 raw0 (List.replicate 101 rec0)).map fun p => p.1.length)
      = some 101 ∧ 100 < 101 := by
  refine ⟨by with_unfolding_all decide, by norm_num⟩

/-- C4 (amended): the hardened endpoints cap the returned collection at 100
records while `total` is the full filtered count before truncation (the
returned length is `min 100 total`); the public endpoints return the whole
filtered collection, with `total` always equal to the returned length. -/
theorem c4_truncation (cutoff : Date) (r : RawParams) (cs : List Commitment)
    (fs : List FundingEvent) :
    (api_commitments_secure cutoff r cs).1.length
      = min 100 (api_commitments_secure cutoff r cs).2 ∧
    (api_commitments_secure cutoff r cs).1.length ≤ 100 ∧
    (api_commitments_secure cutoff r cs).1.length ≤ (api_commitments_secure cutoff r cs).2 ∧
    (api_funding_secure cutoff r fs).1.length = min 100 (api_funding_secure cutoff r fs).2 ∧
    (api_funding_secure cutoff r fs).1.length ≤ 100 ∧
    (api_funding_secure cutoff r fs).1.length ≤ (api_funding_secure cutoff r fs).2 ∧
    (∀ res total, api_commitments_app cutoff r cs = some (res, total) → res.length = total) ∧
    (∀ res total, api_funding_app cutoff r fs = some (res, total) → res.length = total) := by
  obtain ⟨lc, hlc⟩ : ∃ l : List Commitment,
      api_commitments_secure cutoff r cs = (l.take 100, l.length) := ⟨_, rfl⟩
  obtain ⟨lf, hlf⟩ : ∃ l : List FundingEvent,
      api_funding_secure cutoff r fs = (l.take 100, l.length) := ⟨_, rfl⟩
  rw [hlc, hlf]
  refine ⟨by simp [List.length_take], by simp, by simp [List.length_take],
    by simp [List.length_take], by simp, by simp [List.length_take], ?_, ?_⟩
  · intro res total h
    simp only [api_commitments_app, Option.map_eq_some'] at h
    obtain ⟨l0, _, heq⟩ := h
    have h1 := congrArg Prod.fst heq
    have h2 := congrArg Prod.snd heq
    simp only at h1 h2
    rw [← h1, ← h2]
  · intro res total h
    simp only [api_funding_app, Option.map_eq_some'] at h
    obtain ⟨l0, _, heq⟩ := h
    have h1 := congrArg Prod.fst heq
    have h2 := congrArg Prod.snd heq
    simp only at h1 h2
    rw [← h1, ← h2]

/-- C4 witness: the amended statement applied to a one-record snapshot in
the public dashboard (`total` = returned length there). -/
theorem c4_witness :
    api_commitments_app cutoff0 raw0 [rec0] = some ([rec0], 1) ∧
    ([rec0] : List Commitment).length = 1 :=
  ⟨by with_unfolding_all decide,
   (c4_truncation cutoff0 raw0 [rec0] []).2.2.2.2.2.2.1 [rec0] 1
     (by with_unfolding_all decide)⟩

/-! ## C5 -/

/-- A value the pattern rejects is sanitized to the empty string. -/
theorem sanitize_invalid {t : String} (h : matchesFilterValue t = false) :
    sanitizeFilterValue t = "" := by
  by_cases he : t = ""
  · simp [sanitizeFilterValue, he]
  · simp [sanitizeFilterValue, he, h]

/-- C5 counterexample: the public `api_commitments` does not sanitize the
`type` parameter: the invalid value `"<script>"` is applied as an
exact-match filter (the matching recent record is filtered out), while the
hardened endpoint resets it to no-filter and returns the record. -/
theorem c5_counterexample :
    matchesFilterValue "<script>" = false ∧
    api_commitments_app cutoff0 rawScript [rec0] = some ([], 0) ∧
    api_commitments_secure cutoff0 rawScript [rec0] = ([rec0], 1) := by
  refine ⟨by decide, by with_unfolding_all decide, by with_unfolding_all decide⟩

/-- C5 (amended): in the hardened dashboard a `commitment_type` / `sector`
value that fails `^[a-zA-Z0-9_-]+$` is silently reset to no-filter — the
response equals the response for an empty filter value; the public
dashboard instead applies the raw value as an exact-match filter (without
raising). -/
theorem c5_invalid_filter_reset (cutoff : Date) (r : RawParams) (cs : List Commitment)
    (fs : List FundingEvent) (ht : matchesFilterValue r.commitment_type = false)
    (hs : matchesFilterValue r.sector = false) :
    api_commitments_secure cutoff r cs
      = api_commitments_secure cutoff { r with commitment_type := "" } cs ∧
    api_funding_secure cutoff r fs = api_funding_secure cutoff { r with sector := "" } fs := by
  have h1 : sanitizeFilterValue r.commitment_type = "" := sanitize_invalid ht
  have h2 : sanitizeFilterValue r.sector = "" := sanitize_invalid hs
  have h0 : sanitizeFilterValue "" = "" := by decide
  constructor
  · simp only [api_commitments_secure, validate_query_params, h1, h0]
  · simp only [api_funding_secure, validate_query_params, h2, h0]

/-- C5 witness: the amended reset property applied to `"<script>"` on
concrete snapshots. -/
theorem c5_witness :
    matchesFilterValue "<script>" = false ∧
    api_commitments_secure cutoff0 rawScript [rec0]
      = api_commitments_secure cutoff0 { rawScript with commitment_type := "" } [rec0] ∧
    api_funding_secure cutoff0 rawScript [fev0]
      = api_funding_secure cutoff0 { rawScript with sector := "" } [fev0] :=
  ⟨by decide,
   (c5_invalid_filter_reset cutoff0 rawScript [rec0] [fev0] (by decide) (by decide)).1,
   (c5_invalid_filter_reset cutoff0 rawScript [rec0] [fev0] (by decide) (by decide)).2⟩

/-! ## C6 -/

/-- A loop that conditionally appends one element per input equals
`filter` + `map`. -/
theorem foldl_ite_append_eq {α β : Type} (p : β → Bool) (f : β → α) :
    ∀ (l : List β) (acc : List α),
      l.foldl (fun acc b => if p b then acc ++ [f b] else acc) acc
        = acc ++ (l.filter p).map f := by
  intro l
  induction l with
  | nil => intro acc; simp
  | cons b rest ih =>
    intro acc
    simp only [List.foldl_cons]
    by_cases hb : p b
    · rw [if_pos hb, ih, List.filter_cons_of_pos hb]
      simp
    · rw [if_neg hb, ih, List.filter_cons_of_neg hb]

/-- The three sequential append-loops of `api_alerts` produce exactly the
qualifying commitment alerts, then the qualifying threat alerts, then the
qualifying partnership alerts. -/
theorem alertsLoop_eq (weekAgo : Date) (cs : List Commitment) (fs : List FundingEvent) :
    alertsLoop weekAgo cs fs
      = (cs.filter (commitmentAlertKeep weekAgo)).map mkCommitmentAlert
        ++ (fs.filter threatAlertKeep).map mkThreatAlert
        ++ (fs.filter partnershipAlertKeep).map mkPartnershipAlert := by
  unfold alertsLoop
  rw [foldl_ite_append_eq, foldl_ite_append_eq, foldl_ite_append_eq]
  simp [List.append_assoc]

/-- C6: threat alerts are produced, with priority "urgent", for every
funding event with `competitive_threat > 0.6` with no recency test on its
`announcement_date`; commitment alerts, with priority "high", are produced
exactly for commitments whose date parses, falls within the last 7 days
(`≥ week_ago`), and whose `relevance_score > 0.6`. -/
theorem c6_alert_rules (weekAgo : Date) (cs : List Commitment) (fs : List FundingEvent)
    (f : FundingEvent) (hf : f ∈ fs) (ht : (6/10 : ℚ) < f.competitive_threat) :
    alertsLoop weekAgo cs fs
      = (cs.filter (commitmentAlertKeep weekAgo)).map mkCommitmentAlert
        ++ (fs.filter threatAlertKeep).map mkThreatAlert
        ++ (fs.filter partnershipAlertKeep).map mkPartnershipAlert ∧
    mkThreatAlert f ∈ alertsLoop weekAgo cs fs ∧
    (mkThreatAlert f).type = "threat" ∧ (mkThreatAlert f).priority = "urgent" ∧
    (∀ c : Commitment, commitmentAlertKeep weekAgo c = true ↔
      ∃ d, parseDate c.announcement_date = some d ∧ dateLe weekAgo d = true ∧
        (6/10 : ℚ) < c.relevance_score) ∧
    (∀ c ∈ cs, commitmentAlertKeep weekAgo c = true →
      mkCommitmentAlert c ∈ alertsLoop weekAgo cs fs ∧
        (mkCommitmentAlert c).priority = "high") ∧
    (∀ a ∈ alertsLoop weekAgo cs fs, a.type = "commitment" →
      ∃ c ∈ cs, commitmentAlertKeep weekAgo c = true ∧ a = mkCommitmentAlert c) := by
  have hchar := alertsLoop_eq weekAgo cs fs
  refine ⟨hchar, ?_, rfl, rfl, ?_, ?_, ?_⟩
  · rw [hchar]
    have hmem : mkThreatAlert f ∈ (fs.filter threatAlertKeep).map mkThreatAlert :=
      List.mem_map_of_mem _ (List.mem_filter.mpr ⟨hf, by simp [threatAlertKeep, ht]⟩)
    exact List.mem_append.mpr (Or.inl (List.mem_append.mpr (Or.inr hmem)))
  · intro c
    unfold commitmentAlertKeep
    rcases hp : parseDate c.announcement_date with _ | d
    · simp
    · simp [Bool.and_eq_true, decide_eq_true_eq]
  · intro c hc hkeep
    refine ⟨?_, rfl⟩
    rw [hchar]
    exact List.mem_append.mpr (Or.inl (List.mem_append.mpr (Or.inl
      (List.mem_map_of_mem _ (List.mem_filter.mpr ⟨hc, hkeep⟩)))))
  · intro a ha hat
    rw [hchar] at ha
    rcases List.mem_append.mp ha with h12 | h3
    · rcases List.mem_append.mp h12 with h1 | h2
      · obtain ⟨c, hc, rfl⟩ := List.mem_map.mp h1
        exact ⟨c, (List.mem_filter.mp hc).1, (List.mem_filter.mp hc).2, rfl⟩
      · obtain ⟨g, hg, rfl⟩ := List.mem_map.mp h2
        exact absurd hat (by simp [mkThreatAlert])
    · obtain ⟨g, hg, rfl⟩ := List.mem_map.mp h3
      exact absurd hat (by simp [mkPartnershipAlert])

/-- C6 witness: a funding event with `competitive_threat = 0.95` dated 400
days in the past still yields an urgent threat alert. -/
theorem c6_witness :
    fevOld ∈ [fevOld] ∧ ((6/10 : ℚ) < fevOld.competitive_threat) ∧
    mkThreatAlert fevOld ∈ alertsLoop weekAgo0 [] [fevOld] ∧
    (mkThreatAlert fevOld).priority = "urgent" :=
  ⟨List.mem_singleton_self _, by with_unfolding_all decide,
   (c6_alert_rules weekAgo0 [] [fevOld] fevOld (List.mem_singleton_self _)
     (by with_unfolding_all decide)).2.1,
   (c6_alert_rules weekAgo0 [] [fevOld] fevOld (List.mem_singleton_self _)
     (by with_unfolding_all decide)).2.2.2.1⟩

/-! ## C7 -/

/-- C7: `api_alerts` returns the derived alerts sorted by date descending
(lexicographically on the ISO date string), truncated to at most 20
entries, with `total` the count of all derived alerts before truncation:
the returned list is the 20-prefix of a permutation of the concatenated
alerts, `total` is always ≥ the returned length, and the returned length
is ≤ 20. -/
theorem c7_alerts_sorted_truncated (weekAgo : Date) (cs : List Commitment)
    (fs : List FundingEvent) :
    (api_alerts weekAgo cs fs).1.length ≤ 20 ∧
    (api_alerts weekAgo cs fs).1.length ≤ (api_alerts weekAgo cs fs).2 ∧
    (api_alerts weekAgo cs fs).2 = (alertsLoop weekAgo cs fs).length ∧
    ((alertsLoop weekAgo cs fs).mergeSort alertDateGe).Perm (alertsLoop weekAgo cs fs) ∧
    (api_alerts weekAgo cs fs).1
      = ((alertsLoop weekAgo cs fs).mergeSort alertDateGe).take 20 ∧
    (api_alerts weekAgo cs fs).1.Pairwise (fun a b => b.date ≤ a.date) := by
  have htrans : ∀ a b c : Alert, alertDateGe a b → alertDateGe b c → alertDateGe a c := by
    intro a b c h1 h2
    simp only [alertDateGe, decide_eq_true_eq] at h1 h2 ⊢
    exact le_trans h2 h1
  have htotal : ∀ a b : Alert, alertDateGe a b || alertDateGe b a := by
    intro a b
    simp only [alertDateGe]
    rcases le_total b.date a.date with h | h <;> simp [h]
  have hsorted := @List.sorted_mergeSort Alert alertDateGe htrans htotal
    (alertsLoop weekAgo cs fs)
  simp only [api_alerts]
  refine ⟨?_, ?_, ?_, List.mergeSort_perm _ _, trivial, ?_⟩
  · simp [List.length_take]
  · simp [List.length_take]
  · simp
  · exact (List.Pairwise.sublist (List.take_sublist _ _) hsorted).imp
      fun h => of_decide_eq_true h
